import Mathlib

/-!
Verification of the testing-attempt lifecycle of the vacancy/testing service
(`src/services/testing.py`, class `TestingApplicationService`).

The service methods are translated as pure functions over an explicit `Store`
(the relational state behind the repository collaborators) plus an explicit
`now : Int` clock (Python `datetime.now()`), in microseconds, so that
`timedelta(days=d)` becomes `d * 86400000000`.  Errors raised by the Python
code become `Except Err` results; operations that may write return the
resulting store alongside the result.  The permission/state decorators are a
precondition contract run before each body and are not part of the bodies
translated here.

The repository implementations are not part of the provided sources; they are
modelled from the spec's collaborator contracts (spec section 6), as marked on
each definition.
-/

/-- State of a vacancy; only `OPENED` matters to the testing lifecycle. -/
inductive VacancyState
  | DRAFT
  | OPENED
  | CLOSED
deriving DecidableEq

/-- Error kinds raised by the service bodies (`src.exceptions`): `NotFound`
and `BadRequest`, each carrying the human-readable message the code builds. -/
inductive Err
  | NotFound (msg : String)
  | BadRequest (msg : String)
deriving DecidableEq

/-- A testing record: identity plus its owning vacancy. Other configuration
fields are not read by the lifecycle code. -/
structure Testing where
  id : Nat
  vacancy_id : Nat
deriving DecidableEq

/-- Vacancy fields read by the lifecycle code: state and the allotted test
duration in days (`test_time`, a Python `int`). -/
structure Vacancy where
  id : Nat
  state : VacancyState
  test_time : Int
deriving DecidableEq

/-- A question (theoretical or practical) owned by a testing. -/
structure Question where
  id : Nat
  testing_id : Nat
deriving DecidableEq

/-- An attempt row: user, testing, score counters and creation time
(microseconds). -/
structure Attempt where
  id : Nat
  user_id : Nat
  testing_id : Nat
  correct_answers : Nat
  total_answers : Nat
  created_at : Int
deriving DecidableEq

/-- The `AttemptTest` response schema: the attempt's fields plus the
optionally embedded `test` record.  Modelled from the spec: "return the
created Attempt enriched with the associated Testing record embedded as
`test`". -/
structure AttemptTest where
  id : Nat
  user_id : Nat
  testing_id : Nat
  correct_answers : Nat
  total_answers : Nat
  created_at : Int
  test : Option Testing
deriving DecidableEq

/-- Answer payload for a theoretical question.  Modelled from the spec: the
payload is never read by the (stubbed, zero-score) grading code. -/
structure AnswerToTheoreticalQuestion where
  question_id : Nat
deriving DecidableEq

/-- Answer payload for a practical question.  Modelled from the spec: the
payload is never read by the (stubbed, zero-score) grading code. -/
structure AnswerToPracticalQuestion where
  question_id : Nat
deriving DecidableEq

/-- The relational store behind the repository collaborators. -/
structure Store where
  testings : List Testing
  vacancies : List Vacancy
  attempts : List Attempt
  practical_questions : List Question
  theoretical_questions : List Question
  next_attempt_id : Nat
deriving DecidableEq

/-- Python `timedelta(days=d)` as microseconds. -/
def timedelta_days (d : Int) : Int :=
  d * 86400000000

/-- Modelled from the spec: `TestingRepo.get(id)` returns the testing with
the given id, if any. -/
def TestingRepo.get (s : Store) (id : Nat) : Option Testing :=
  s.testings.find? (fun t => t.id == id)

/-- Modelled from the spec: `TestingRepo.get_all(vacancy_id)` returns the
testings owned by the given vacancy. -/
def TestingRepo.get_all (s : Store) (vacancy_id : Nat) : List Testing :=
  s.testings.filter (fun t => t.vacancy_id == vacancy_id)

/-- Modelled from the spec: `VacancyRepo.get(id)` returns the vacancy with
the given id, if any. -/
def VacancyRepo.get (s : Store) (id : Nat) : Option Vacancy :=
  s.vacancies.find? (fun v => v.id == id)

/-- Modelled from the spec: `PracticalQuestionRepo.get_all(testing_id)`. -/
def PracticalQuestionRepo.get_all (s : Store) (testing_id : Nat) : List Question :=
  s.practical_questions.filter (fun q => q.testing_id == testing_id)

/-- Modelled from the spec: `TheoreticalQuestionRepo.get_all(testing_id)`. -/
def TheoreticalQuestionRepo.get_all (s : Store) (testing_id : Nat) : List Question :=
  s.theoretical_questions.filter (fun q => q.testing_id == testing_id)

/-- Earliest-`created_at` element of a list of attempts (ties resolved to the
earlier list position). -/
def first_aux : List Attempt → Option Attempt
  | [] => none
  | a :: rest =>
    match first_aux rest with
    | none => some a
    | some b => if b.created_at < a.created_at then some b else some a

/-- Modelled from the spec: `AttemptRepo.get_first(user_id, test_id)` returns
the user's earliest (minimal `created_at`) attempt at the testing, or none. -/
def AttemptRepo.get_first (s : Store) (user_id test_id : Nat) : Option Attempt :=
  first_aux (s.attempts.filter (fun a => a.user_id == user_id && a.testing_id == test_id))

/-- Modelled from the spec: `AttemptRepo.create(...)` inserts one attempt row
with a fresh id and the current time as `created_at`, and returns it. -/
def AttemptRepo.create (s : Store) (user_id testing_id correct_answers total_answers : Nat)
    (now : Int) : Attempt × Store :=
  let a : Attempt :=
    { id := s.next_attempt_id, user_id := user_id, testing_id := testing_id,
      correct_answers := correct_answers, total_answers := total_answers, created_at := now }
  (a, { s with attempts := s.attempts ++ [a], next_attempt_id := s.next_attempt_id + 1 })

/-- Sort key accepted by the listing operations (`Literal["title", "created_at"]`). -/
inductive OrderBy
  | title
  | created_at
deriving DecidableEq

/-- The query issued to `AttemptRepo` by a listing operation: either a plain
`get_all` or a text `search`, with the limit, offset, ordering and filters the
service passes. -/
inductive AttemptRepoCall
  | getAll (limit offset : Int) (order_by : OrderBy) (user_id : Option Nat) (testing_id : Option Nat)
  | search (limit offset : Int) (order_by : OrderBy) (query : String) (user_id : Option Nat)
deriving DecidableEq

/-- Limit argument of an attempt-repository call. -/
def AttemptRepoCall.limit : AttemptRepoCall → Int
  | .getAll l _ _ _ _ => l
  | .search l _ _ _ _ => l

/-- Offset argument of an attempt-repository call. -/
def AttemptRepoCall.offset : AttemptRepoCall → Int
  | .getAll _ o _ _ _ => o
  | .search _ o _ _ _ => o

/-- User filter argument of an attempt-repository call. -/
def AttemptRepoCall.user_id : AttemptRepoCall → Option Nat
  | .getAll _ _ _ u _ => u
  | .search _ _ _ _ u => u

/-- Whether an attempt row passes the optional user and testing filters
(a `None` filter restricts nothing). -/
def attempt_matches (user_id testing_id : Option Nat) (a : Attempt) : Bool :=
  (match user_id with
   | some u => a.user_id == u
   | none => true)
  && (match testing_id with
      | some t => a.testing_id == t
      | none => true)

/-- Modelled from the spec: `AttemptRepo.get_all(limit, offset, order_by,
user_id?, testing_id?)` returns one page of the attempts passing the filters.
The ordering semantics are owned by the repository and left unspecified by the
spec; the model pages over insertion order. -/
def AttemptRepo.run_get_all (s : Store) (limit offset : Int)
    (user_id testing_id : Option Nat) : List Attempt :=
  (((s.attempts.filter (attempt_matches user_id testing_id)).drop offset.toNat).take limit.toNat)

/-- Body of `TestingApplicationService.get_test_attempts` up to the repository
call: validation, clamping, and the query it issues (source lines 54-72). -/
def get_test_attempts_call (user : Nat) (testing_id : Option Nat) (page per_page : Int)
    (order_by : OrderBy) : Except Err AttemptRepoCall :=
  if page < 1 then Except.error (Err.NotFound "Страница не найдена")
  else if per_page < 1 then Except.error (Err.BadRequest "Неверное количество элементов на странице")
  else
    let per_page_limit : Int := 40
    let per_page2 := min (min per_page per_page_limit) 2147483646
    let offset := min ((page - 1) * per_page2) 2147483646
    Except.ok (AttemptRepoCall.getAll per_page2 offset order_by (some user) testing_id)

/-- Body of `TestingApplicationService.get_test_attempts`, with the issued
query executed against the store. -/
def get_test_attempts (s : Store) (user : Nat) (testing_id : Option Nat) (page per_page : Int)
    (order_by : OrderBy) : Except Err (List Attempt) :=
  if page < 1 then Except.error (Err.NotFound "Страница не найдена")
  else if per_page < 1 then Except.error (Err.BadRequest "Неверное количество элементов на странице")
  else
    let per_page_limit : Int := 40
    let per_page2 := min (min per_page per_page_limit) 2147483646
    let offset := min ((page - 1) * per_page2) 2147483646
    Except.ok (AttemptRepo.run_get_all s per_page2 offset (some user) testing_id)

/-- Body of `TestingApplicationService.get_user_attempts` up to the repository
call: validation, clamping, and the query it issues — a `search` when `query`
is truthy, a plain `get_all` otherwise (source lines 98-124).  The method does
not read `current_user`, so the caller does not appear here. -/
def get_user_attempts_call (page per_page : Int) (order_by : OrderBy)
    (query : Option String) (user_id : Option Nat) : Except Err AttemptRepoCall :=
  if page < 1 then Except.error (Err.NotFound "Страница не найдена")
  else if per_page < 1 then Except.error (Err.BadRequest "Неверное количество элементов на странице")
  else
    let per_page_limit : Int := 40
    let per_page2 := min (min per_page per_page_limit) 2147483646
    let offset := min ((page - 1) * per_page2) 2147483646
    if query.getD "" ≠ "" then
      Except.ok (AttemptRepoCall.search per_page2 offset order_by (query.getD "") user_id)
    else Except.ok (AttemptRepoCall.getAll per_page2 offset order_by user_id none)

/-- Body of `TestingApplicationService.start_practical_testing` (source lines
129-162): testing lookup, vacancy gate, deadline policy, then the practical
questions.  Never writes, so the store is returned unchanged on every path. -/
def start_practical_testing (s : Store) (user : Nat) (now : Int) (testing_id : Nat) :
    Except Err (List Question) × Store :=
  match TestingRepo.get s testing_id with
  | none => (Except.error (Err.NotFound ("Тестирование с id:" ++ toString testing_id ++ " не найдено")), s)
  | some testing =>
    match VacancyRepo.get s testing.vacancy_id with
    | none => (Except.error (Err.NotFound ("Вакансия с id:" ++ toString testing.vacancy_id ++ " не найдена")), s)
    | some vacancy =>
      if vacancy.state ≠ VacancyState.OPENED then
        (Except.error (Err.BadRequest ("Вакансия с id:" ++ toString testing.vacancy_id ++ " не открыта")), s)
      else
        match AttemptRepo.get_first s user testing_id with
        | some first_attempt =>
          if now > first_attempt.created_at + timedelta_days vacancy.test_time then
            (Except.error (Err.BadRequest "Время прохождения теста истекло"), s)
          else
            (Except.ok (PracticalQuestionRepo.get_all s testing_id), s)
        | none => (Except.ok (PracticalQuestionRepo.get_all s testing_id), s)

/-- Body of `TestingApplicationService.start_theoretical_testing` (source
lines 166-199): identical to the practical variant except that the
theoretical question repository is read. -/
def start_theoretical_testing (s : Store) (user : Nat) (now : Int) (testing_id : Nat) :
    Except Err (List Question) × Store :=
  match TestingRepo.get s testing_id with
  | none => (Except.error (Err.NotFound ("Тестирование с id:" ++ toString testing_id ++ " не найдено")), s)
  | some testing =>
    match VacancyRepo.get s testing.vacancy_id with
    | none => (Except.error (Err.NotFound ("Вакансия с id:" ++ toString testing.vacancy_id ++ " не найдена")), s)
    | some vacancy =>
      if vacancy.state ≠ VacancyState.OPENED then
        (Except.error (Err.BadRequest ("Вакансия с id:" ++ toString testing.vacancy_id ++ " не открыта")), s)
      else
        match AttemptRepo.get_first s user testing_id with
        | some first_attempt =>
          if now > first_attempt.created_at + timedelta_days vacancy.test_time then
            (Except.error (Err.BadRequest "Время прохождения теста истекло"), s)
          else
            (Except.ok (TheoreticalQuestionRepo.get_all s testing_id), s)
        | none => (Except.ok (TheoreticalQuestionRepo.get_all s testing_id), s)

/-- Body of `TestingApplicationService.complete_theoretical_testing` (source
lines 203-254): same gate and deadline checks, then creates one attempt with
stubbed zero scoring and returns it with the testing embedded as `test`. -/
def complete_theoretical_testing (s : Store) (user : Nat) (now : Int) (testing_id : Nat)
    (data : List AnswerToTheoreticalQuestion) : Except Err AttemptTest × Store :=
  match TestingRepo.get s testing_id with
  | none => (Except.error (Err.NotFound ("Тестирование с id:" ++ toString testing_id ++ " не найдено")), s)
  | some testing =>
    match VacancyRepo.get s testing.vacancy_id with
    | none => (Except.error (Err.NotFound ("Вакансия с id:" ++ toString testing.vacancy_id ++ " не найдена")), s)
    | some vacancy =>
      if vacancy.state ≠ VacancyState.OPENED then
        (Except.error (Err.BadRequest ("Вакансия с id:" ++ toString testing.vacancy_id ++ " не открыта")), s)
      else
        let finish :=
          let questions := TheoreticalQuestionRepo.get_all s testing_id
          let correct_answers := 0
          let (attempt, s2) := AttemptRepo.create s user testing_id correct_answers questions.length now
          (Except.ok
            { id := attempt.id, user_id := attempt.user_id, testing_id := attempt.testing_id,
              correct_answers := attempt.correct_answers, total_answers := attempt.total_answers,
              created_at := attempt.created_at, test := some testing }, s2)
        match AttemptRepo.get_first s user testing_id with
        | some first_attempt =>
          if now > first_attempt.created_at + timedelta_days vacancy.test_time then
            (Except.error (Err.BadRequest "Время прохождения теста истекло"), s)
          else finish
        | none => finish

/-- Body of `TestingApplicationService.complete_practical_testing` (source
lines 258-308): identical to the theoretical variant except that the practical
question repository is read. -/
def complete_practical_testing (s : Store) (user : Nat) (now : Int) (testing_id : Nat)
    (data : List AnswerToPracticalQuestion) : Except Err AttemptTest × Store :=
  match TestingRepo.get s testing_id with
  | none => (Except.error (Err.NotFound ("Тестирование с id:" ++ toString testing_id ++ " не найдено")), s)
  | some testing =>
    match VacancyRepo.get s testing.vacancy_id with
    | none => (Except.error (Err.NotFound ("Вакансия с id:" ++ toString testing.vacancy_id ++ " не найдена")), s)
    | some vacancy =>
      if vacancy.state ≠ VacancyState.OPENED then
        (Except.error (Err.BadRequest ("Вакансия с id:" ++ toString testing.vacancy_id ++ " не открыта")), s)
      else
        let finish :=
          let questions := PracticalQuestionRepo.get_all s testing_id
          let correct_answers := 0
          let (attempt, s2) := AttemptRepo.create s user testing_id correct_answers questions.length now
          (Except.ok
            { id := attempt.id, user_id := attempt.user_id, testing_id := attempt.testing_id,
              correct_answers := attempt.correct_answers, total_answers := attempt.total_answers,
              created_at := attempt.created_at, test := some testing }, s2)
        match AttemptRepo.get_first s user testing_id with
        | some first_attempt =>
          if now > first_attempt.created_at + timedelta_days vacancy.test_time then
            (Except.error (Err.BadRequest "Время прохождения теста истекло"), s)
          else finish
        | none => finish

/-- Body of `TestingApplicationService.get_testing` (source lines 382-401):
testing lookup and vacancy gate, then the testing itself. -/
def get_testing (s : Store) (testing_id : Nat) : Except Err Testing :=
  match TestingRepo.get s testing_id with
  | none => Except.error (Err.NotFound ("Тестирование с id:" ++ toString testing_id ++ " не найдено"))
  | some testing =>
    match VacancyRepo.get s testing.vacancy_id with
    | none => Except.error (Err.NotFound ("Вакансия с id:" ++ toString testing.vacancy_id ++ " не найдена"))
    | some vacancy =>
      if vacancy.state ≠ VacancyState.OPENED then
        Except.error (Err.BadRequest ("Вакансия с id:" ++ toString testing.vacancy_id ++ " не открыта"))
      else
        Except.ok testing

/-- Body of `TestingApplicationService.get_testings` (source lines 405-415):
an unscoped list of the vacancy's testings, with no vacancy gate. -/
def get_testings (s : Store) (vacancy_id : Nat) : Except Err (List Testing) :=
  Except.ok (TestingRepo.get_all s vacancy_id)

/-- Error of a lifecycle result, if any. -/
def errOf {α : Type} : Except Err α × Store → Option Err
  | (Except.error e, _) => some e
  | (Except.ok _, _) => none


/-! ## Helper lemmas about the earliest-attempt selection -/

theorem first_aux_ne_none {l : List Attempt} (h : first_aux l = none) : l = [] := by
  cases l with
  | nil => rfl
  | cons a rest =>
    exfalso
    unfold first_aux at h
    cases hr : first_aux rest <;> rw [hr] at h <;> simp at h
    split at h <;> simp at h

theorem first_aux_mem {l : List Attempt} {b : Attempt} (h : first_aux l = some b) : b ∈ l := by
  induction l with
  | nil => simp [first_aux] at h
  | cons a rest ih =>
    unfold first_aux at h
    cases hr : first_aux rest with
    | none =>
      rw [hr] at h
      simp at h
      simp [h]
    | some c =>
      rw [hr] at h
      by_cases hc : c.created_at < a.created_at
      · simp [hc] at h
        subst h
        exact List.mem_cons_of_mem a (ih hr)
      · simp [hc] at h
        simp [h]

theorem first_aux_le {l : List Attempt} :
    ∀ {b : Attempt}, first_aux l = some b → ∀ a ∈ l, b.created_at ≤ a.created_at := by
  induction l with
  | nil => intro b h; simp [first_aux] at h
  | cons a rest ih =>
    intro b h
    unfold first_aux at h
    cases hr : first_aux rest with
    | none =>
      rw [hr] at h
      simp at h
      subst h
      rw [first_aux_ne_none hr]
      intro x hx
      rcases List.mem_cons.mp hx with hx | hx
      · simp [hx]
      · simp at hx
    | some c =>
      rw [hr] at h
      have hcrest := ih hr
      by_cases hc : c.created_at < a.created_at
      · simp [hc] at h
        subst h
        intro x hx
        rcases List.mem_cons.mp hx with hx | hx
        · subst hx; exact le_of_lt hc
        · exact hcrest x hx
      · simp [hc] at h
        subst h
        intro x hx
        rcases List.mem_cons.mp hx with hx | hx
        · simp [hx]
        · exact le_trans (not_lt.mp hc) (hcrest x hx)

theorem get_first_spec (s : Store) (u tid : Nat) (fa : Attempt)
    (h : AttemptRepo.get_first s u tid = some fa) :
    fa ∈ s.attempts ∧ fa.user_id = u ∧ fa.testing_id = tid ∧
      ∀ a ∈ s.attempts, a.user_id = u → a.testing_id = tid →
        fa.created_at ≤ a.created_at := by
  unfold AttemptRepo.get_first at h
  have hmem := first_aux_mem h
  have hle := first_aux_le h
  rw [List.mem_filter] at hmem
  obtain ⟨hin, hpred⟩ := hmem
  simp only [Bool.and_eq_true, beq_iff_eq] at hpred
  refine ⟨hin, hpred.1, hpred.2, fun a ha hu ht => ?_⟩
  exact hle a (List.mem_filter.mpr ⟨ha, by simp [hu, ht]⟩)

/-! ## Claim theorems -/

/-- Claim C4: for every `page < 1` both listing operations fail `NotFound`;
for every `perPage < 1` (with `page ≥ 1`) both fail `BadRequest`; the page
check runs before the per-page check, so `page < 1` yields `NotFound` even
when `perPage < 1` as well. -/
theorem c4_pagination_validation (user : Nat) (tid : Option Nat) (page per_page : Int)
    (ob : OrderBy) (q : Option String) (uid : Option Nat) :
    (page < 1 →
      get_test_attempts_call user tid page per_page ob =
        Except.error (Err.NotFound "Страница не найдена") ∧
      get_user_attempts_call page per_page ob q uid =
        Except.error (Err.NotFound "Страница не найдена")) ∧
    (1 ≤ page → per_page < 1 →
      get_test_attempts_call user tid page per_page ob =
        Except.error (Err.BadRequest "Неверное количество элементов на странице") ∧
      get_user_attempts_call page per_page ob q uid =
        Except.error (Err.BadRequest "Неверное количество элементов на странице")) := by
  refine ⟨fun hp => ?_, fun hp hpp => ?_⟩
  · simp [get_test_attempts_call, get_user_attempts_call, hp]
  · have h1 : ¬ page < 1 := not_lt.mpr hp
    simp [get_test_attempts_call, get_user_attempts_call, h1, hpp]

/-- Witness for C4: `page = 0` fails `NotFound` even with a bad `perPage`,
and `page = 1, perPage = 0` fails `BadRequest`. -/
theorem c4_pagination_validation_witness :
    get_test_attempts_call 7 none 0 0 OrderBy.created_at =
      Except.error (Err.NotFound "Страница не найдена") ∧
    get_user_attempts_call 1 0 OrderBy.created_at none none =
      Except.error (Err.BadRequest "Неверное количество элементов на странице") :=
  ⟨((c4_pagination_validation 7 none 0 0 OrderBy.created_at none none).1 (by decide)).1,
   ((c4_pagination_validation 7 none 1 0 OrderBy.created_at none none).2 (by decide) (by decide)).2⟩

/-- Claim C5: with valid pagination, both listing operations clamp the page
size to `min perPage 40` (hence exactly 40 whenever `perPage > 40`) and pass
`offset = min ((page-1) * effectivePerPage) 2147483646` to the repository
query. -/
theorem c5_pagination_clamping (user : Nat) (tid : Option Nat) (page per_page : Int)
    (ob : OrderBy) (q : Option String) (uid : Option Nat)
    (hp : 1 ≤ page) (hpp : 1 ≤ per_page) :
    ∃ c c', get_test_attempts_call user tid page per_page ob = Except.ok c ∧
      get_user_attempts_call page per_page ob q uid = Except.ok c' ∧
      c.limit = min per_page 40 ∧
      c.offset = min ((page - 1) * min per_page 40) 2147483646 ∧
      c'.limit = min per_page 40 ∧
      c'.offset = min ((page - 1) * min per_page 40) 2147483646 ∧
      (40 < per_page → c.limit = 40 ∧ c'.limit = 40) := by
  have h1 : ¬ page < 1 := not_lt.mpr hp
  have h2 : ¬ per_page < 1 := not_lt.mpr hpp
  have hm : min (min per_page 40) 2147483646 = min per_page 40 := by
    apply min_eq_left
    calc min per_page 40 ≤ 40 := min_le_right _ _
      _ ≤ 2147483646 := by norm_num
  have h40 : 40 < per_page → min per_page 40 = 40 := fun h => min_eq_right (le_of_lt h)
  unfold get_test_attempts_call get_user_attempts_call
  rw [if_neg h1, if_neg h2, if_neg h1, if_neg h2]
  simp only [hm]
  by_cases hq : q.getD "" = ""
  · rw [if_neg (by simp [hq])]
    exact ⟨_, _, rfl, rfl, rfl, rfl, rfl, rfl, fun h => ⟨h40 h, h40 h⟩⟩
  · rw [if_pos hq]
    exact ⟨_, _, rfl, rfl, rfl, rfl, rfl, rfl, fun h => ⟨h40 h, h40 h⟩⟩

/-- Witness for C5: at `page = 3, perPage = 100` both operations query with
limit 40 and offset `min ((3-1)*40) 2147483646 = 80`. -/
theorem c5_pagination_clamping_witness :
    ∃ c c', get_test_attempts_call 7 none 3 100 OrderBy.created_at = Except.ok c ∧
      get_user_attempts_call 3 100 OrderBy.created_at none none = Except.ok c' ∧
      c.limit = min 100 40 ∧
      c.offset = min ((3 - 1) * min 100 40) 2147483646 ∧
      c'.limit = min 100 40 ∧
      c'.offset = min ((3 - 1) * min 100 40) 2147483646 ∧
      ((40 : Int) < 100 → c.limit = 40 ∧ c'.limit = 40) :=
  c5_pagination_clamping 7 none 3 100 OrderBy.created_at none none (by decide) (by decide)

/-- Claim C8: `get_testings` applies no OPENED-vacancy restriction — for every
store and vacancy id it returns the repository's list and never fails — while
`get_testing` fails `BadRequest` on a non-OPENED vacancy. -/
theorem c8_get_testings_unrestricted (s : Store) (vid tid : Nat) (t : Testing) (v : Vacancy) :
    get_testings s vid = Except.ok (TestingRepo.get_all s vid) ∧
    (TestingRepo.get s tid = some t → VacancyRepo.get s t.vacancy_id = some v →
      v.state ≠ VacancyState.OPENED →
      get_testing s tid =
        Except.error (Err.BadRequest ("Вакансия с id:" ++ toString t.vacancy_id ++ " не открыта"))) := by
  refine ⟨rfl, fun h1 h2 h3 => ?_⟩
  simp [get_testing, h1, h2, h3]

/-- Concrete store with a single non-OPENED (CLOSED) vacancy 1 owning
testing 2. -/
def closedStore : Store :=
  { testings := [{ id := 2, vacancy_id := 1 }],
    vacancies := [{ id := 1, state := VacancyState.CLOSED, test_time := 5 }],
    attempts := [], practical_questions := [], theoretical_questions := [],
    next_attempt_id := 0 }

/-- Witness for C8: on `closedStore`, listing by vacancy succeeds while the
single fetch of its testing fails `BadRequest`. -/
theorem c8_get_testings_unrestricted_witness :
    get_testings closedStore 1 = Except.ok (TestingRepo.get_all closedStore 1) ∧
    get_testing closedStore 2 =
      Except.error (Err.BadRequest ("Вакансия с id:" ++ toString 1 ++ " не открыта")) :=
  ⟨(c8_get_testings_unrestricted closedStore 1 2 { id := 2, vacancy_id := 1 }
      { id := 1, state := VacancyState.CLOSED, test_time := 5 }).1,
   (c8_get_testings_unrestricted closedStore 1 2 { id := 2, vacancy_id := 1 }
      { id := 1, state := VacancyState.CLOSED, test_time := 5 }).2 (by decide) (by decide) (by decide)⟩

/-- Claim C9: the two start variants and the two complete variants run the
same testing-existence, vacancy-gate and deadline checks and fail with the
same errors; they differ only in which question repository is read on
success. -/
theorem c9_variant_equivalence (s : Store) (u : Nat) (now : Int) (tid : Nat)
    (dataT : List AnswerToTheoreticalQuestion) (dataP : List AnswerToPracticalQuestion) :
    errOf (start_theoretical_testing s u now tid) = errOf (start_practical_testing s u now tid) ∧
    errOf (complete_practical_testing s u now tid dataP) =
      errOf (complete_theoretical_testing s u now tid dataT) := by
  constructor <;>
  · first
      | unfold start_theoretical_testing start_practical_testing
      | unfold complete_practical_testing complete_theoretical_testing
    cases hT : TestingRepo.get s tid with
    | none => simp [errOf, hT]
    | some t =>
      cases hV : VacancyRepo.get s t.vacancy_id with
      | none => simp [errOf, hT, hV]
      | some v =>
        by_cases hS : v.state = VacancyState.OPENED
        · cases hF : AttemptRepo.get_first s u tid with
          | none => simp [errOf, hT, hV, hS, hF]
          | some fa =>
            by_cases hD : now > fa.created_at + timedelta_days v.test_time
            · simp [errOf, hT, hV, hS, hF, hD]
            · simp [errOf, hT, hV, hS, hF, hD]
        · simp [errOf, hT, hV, hS]

/-- Claim C2: in every start/complete lifecycle call, a missing testing fails
`NotFound` whatever the rest of the store holds; a found testing with a
missing vacancy fails `NotFound`; a found, non-OPENED vacancy fails
`BadRequest` whatever the attempts and the clock — so each check fires before
the later ones. -/
theorem c2_gate_order (s : Store) (u : Nat) (now : Int) (tid : Nat)
    (dataT : List AnswerToTheoreticalQuestion) (dataP : List AnswerToPracticalQuestion) :
    (TestingRepo.get s tid = none →
      (start_practical_testing s u now tid).1 =
        Except.error (Err.NotFound ("Тестирование с id:" ++ toString tid ++ " не найдено")) ∧
      (start_theoretical_testing s u now tid).1 =
        Except.error (Err.NotFound ("Тестирование с id:" ++ toString tid ++ " не найдено")) ∧
      (complete_theoretical_testing s u now tid dataT).1 =
        Except.error (Err.NotFound ("Тестирование с id:" ++ toString tid ++ " не найдено")) ∧
      (complete_practical_testing s u now tid dataP).1 =
        Except.error (Err.NotFound ("Тестирование с id:" ++ toString tid ++ " не найдено"))) ∧
    (∀ t, TestingRepo.get s tid = some t → VacancyRepo.get s t.vacancy_id = none →
      (start_practical_testing s u now tid).1 =
        Except.error (Err.NotFound ("Вакансия с id:" ++ toString t.vacancy_id ++ " не найдена")) ∧
      (start_theoretical_testing s u now tid).1 =
        Except.error (Err.NotFound ("Вакансия с id:" ++ toString t.vacancy_id ++ " не найдена")) ∧
      (complete_theoretical_testing s u now tid dataT).1 =
        Except.error (Err.NotFound ("Вакансия с id:" ++ toString t.vacancy_id ++ " не найдена")) ∧
      (complete_practical_testing s u now tid dataP).1 =
        Except.error (Err.NotFound ("Вакансия с id:" ++ toString t.vacancy_id ++ " не найдена"))) ∧
    (∀ t v, TestingRepo.get s tid = some t → VacancyRepo.get s t.vacancy_id = some v →
      v.state ≠ VacancyState.OPENED →
      (start_practical_testing s u now tid).1 =
        Except.error (Err.BadRequest ("Вакансия с id:" ++ toString t.vacancy_id ++ " не открыта")) ∧
      (start_theoretical_testing s u now tid).1 =
        Except.error (Err.BadRequest ("Вакансия с id:" ++ toString t.vacancy_id ++ " не открыта")) ∧
      (complete_theoretical_testing s u now tid dataT).1 =
        Except.error (Err.BadRequest ("Вакансия с id:" ++ toString t.vacancy_id ++ " не открыта")) ∧
      (complete_practical_testing s u now tid dataP).1 =
        Except.error (Err.BadRequest ("Вакансия с id:" ++ toString t.vacancy_id ++ " не открыта"))) := by
  refine ⟨fun h => ?_, fun t h1 h2 => ?_, fun t v h1 h2 h3 => ?_⟩
  · exact ⟨by simp [start_practical_testing, h], by simp [start_theoretical_testing, h],
      by simp [complete_theoretical_testing, h], by simp [complete_practical_testing, h]⟩
  · exact ⟨by simp [start_practical_testing, h1, h2],
      by simp [start_theoretical_testing, h1, h2],
      by simp [complete_theoretical_testing, h1, h2],
      by simp [complete_practical_testing, h1, h2]⟩
  · exact ⟨by simp [start_practical_testing, h1, h2, h3],
      by simp [start_theoretical_testing, h1, h2, h3],
      by simp [complete_theoretical_testing, h1, h2, h3],
      by simp [complete_practical_testing, h1, h2, h3]⟩

/-- Store with no testings at all. -/
def emptyStore : Store :=
  { testings := [], vacancies := [], attempts := [], practical_questions := [],
    theoretical_questions := [], next_attempt_id := 0 }

/-- Store with testing 2 whose vacancy 1 is absent (orphaned testing). -/
def orphanStore : Store :=
  { testings := [{ id := 2, vacancy_id := 1 }], vacancies := [], attempts := [],
    practical_questions := [], theoretical_questions := [], next_attempt_id := 0 }

/-- Witness for C2: a missing testing, an orphaned testing and a closed
vacancy each fail with the stated error on a lifecycle call. -/
theorem c2_gate_order_witness :
    (start_practical_testing emptyStore 7 0 9).1 =
      Except.error (Err.NotFound ("Тестирование с id:" ++ toString 9 ++ " не найдено")) ∧
    (start_theoretical_testing orphanStore 7 0 2).1 =
      Except.error (Err.NotFound ("Вакансия с id:" ++ toString 1 ++ " не найдена")) ∧
    (complete_theoretical_testing closedStore 7 0 2 []).1 =
      Except.error (Err.BadRequest ("Вакансия с id:" ++ toString 1 ++ " не открыта")) :=
  ⟨((c2_gate_order emptyStore 7 0 9 [] []).1 (by decide)).1,
   ((c2_gate_order orphanStore 7 0 2 [] []).2.1 { id := 2, vacancy_id := 1 }
      (by decide) (by decide)).2.1,
   ((c2_gate_order closedStore 7 0 2 [] []).2.2 { id := 2, vacancy_id := 1 }
      { id := 1, state := VacancyState.CLOSED, test_time := 5 }
      (by decide) (by decide) (by decide)).2.2.1⟩

/-- Claim C1: after the vacancy gate passes, a user with no prior attempt
passes the deadline check regardless of the clock; when a first attempt
exists, `get_first` indeed returns the user's earliest matching attempt, the
call fails `BadRequest` ("time expired") exactly when
`now > created_at + test_time days`, and passes otherwise. -/
theorem c1_deadline_policy (s : Store) (u : Nat) (now : Int) (tid : Nat)
    (t : Testing) (v : Vacancy)
    (ht : TestingRepo.get s tid = some t) (hv : VacancyRepo.get s t.vacancy_id = some v)
    (ho : v.state = VacancyState.OPENED) :
    (AttemptRepo.get_first s u tid = none →
      (start_practical_testing s u now tid).1 =
        Except.ok (PracticalQuestionRepo.get_all s tid)) ∧
    (∀ fa, AttemptRepo.get_first s u tid = some fa →
      (fa ∈ s.attempts ∧ fa.user_id = u ∧ fa.testing_id = tid ∧
        ∀ a ∈ s.attempts, a.user_id = u → a.testing_id = tid →
          fa.created_at ≤ a.created_at) ∧
      (now > fa.created_at + timedelta_days v.test_time →
        (start_practical_testing s u now tid).1 =
          Except.error (Err.BadRequest "Время прохождения теста истекло")) ∧
      (¬ now > fa.created_at + timedelta_days v.test_time →
        (start_practical_testing s u now tid).1 =
          Except.ok (PracticalQuestionRepo.get_all s tid))) := by
  refine ⟨fun hf => ?_, fun fa hf => ⟨get_first_spec s u tid fa hf, fun hd => ?_, fun hd => ?_⟩⟩
  · simp [start_practical_testing, ht, hv, ho, hf]
  · simp [start_practical_testing, ht, hv, ho, hf, hd]
  · simp [start_practical_testing, ht, hv, ho, hf, hd]

/-- Store with an OPENED vacancy 1 (`test_time = 5` days) owning testing 2
with one practical and one theoretical question; user 7 has a first attempt
at time 0. -/
def deadlineStore : Store :=
  { testings := [{ id := 2, vacancy_id := 1 }],
    vacancies := [{ id := 1, state := VacancyState.OPENED, test_time := 5 }],
    attempts := [{ id := 0, user_id := 7, testing_id := 2, correct_answers := 0,
                   total_answers := 1, created_at := 0 }],
    practical_questions := [{ id := 3, testing_id := 2 }],
    theoretical_questions := [{ id := 4, testing_id := 2 }],
    next_attempt_id := 1 }

/-- The first attempt recorded in `deadlineStore`. -/
def deadlineFirstAttempt : Attempt :=
  { id := 0, user_id := 7, testing_id := 2, correct_answers := 0,
    total_answers := 1, created_at := 0 }

/-- Witness for C1: with `test_time = 5` days and a first attempt at time 0,
a start at day 4 passes, a start at day 6 fails "time expired", and a user
with no prior attempt (user 8) passes at any late time. -/
theorem c1_deadline_policy_witness :
    (start_practical_testing deadlineStore 7 (4 * 86400000000) 2).1 =
      Except.ok (PracticalQuestionRepo.get_all deadlineStore 2) ∧
    (start_practical_testing deadlineStore 7 (6 * 86400000000) 2).1 =
      Except.error (Err.BadRequest "Время прохождения теста истекло") ∧
    (start_practical_testing deadlineStore 8 (1000 * 86400000000) 2).1 =
      Except.ok (PracticalQuestionRepo.get_all deadlineStore 2) :=
  ⟨((c1_deadline_policy deadlineStore 7 (4 * 86400000000) 2
      { id := 2, vacancy_id := 1 } { id := 1, state := VacancyState.OPENED, test_time := 5 }
      (by decide) (by decide) (by decide)).2 deadlineFirstAttempt (by decide)).2.2
      (by decide),
   ((c1_deadline_policy deadlineStore 7 (6 * 86400000000) 2
      { id := 2, vacancy_id := 1 } { id := 1, state := VacancyState.OPENED, test_time := 5 }
      (by decide) (by decide) (by decide)).2 deadlineFirstAttempt (by decide)).2.1
      (by decide),
   (c1_deadline_policy deadlineStore 8 (1000 * 86400000000) 2
      { id := 2, vacancy_id := 1 } { id := 1, state := VacancyState.OPENED, test_time := 5 }
      (by decide) (by decide) (by decide)).1 (by decide)⟩

/-- Claim C10: the deadline comparison is strict — with a first attempt at
`t0` and `test_time` days allotted, a start or complete call at
`now ≤ t0 + test_time days` (including exact equality) passes the deadline
check, and only a strictly later call fails. -/
theorem c10_strict_deadline (s : Store) (u : Nat) (now : Int) (tid : Nat)
    (t : Testing) (v : Vacancy) (fa : Attempt)
    (dataT : List AnswerToTheoreticalQuestion)
    (ht : TestingRepo.get s tid = some t) (hv : VacancyRepo.get s t.vacancy_id = some v)
    (ho : v.state = VacancyState.OPENED) (hf : AttemptRepo.get_first s u tid = some fa) :
    (now ≤ fa.created_at + timedelta_days v.test_time →
      (start_practical_testing s u now tid).1 =
        Except.ok (PracticalQuestionRepo.get_all s tid) ∧
      ∃ r, (complete_theoretical_testing s u now tid dataT).1 = Except.ok r) ∧
    (fa.created_at + timedelta_days v.test_time < now →
      (start_practical_testing s u now tid).1 =
        Except.error (Err.BadRequest "Время прохождения теста истекло") ∧
      (complete_theoretical_testing s u now tid dataT).1 =
        Except.error (Err.BadRequest "Время прохождения теста истекло")) := by
  refine ⟨fun hle => ⟨?_, ?_⟩, fun hlt => ⟨?_, ?_⟩⟩
  · simp [start_practical_testing, ht, hv, ho, hf, not_lt.mpr hle]
  · refine ⟨⟨s.next_attempt_id, u, tid, 0, (TheoreticalQuestionRepo.get_all s tid).length,
      now, some t⟩, ?_⟩
    simp [complete_theoretical_testing, ht, hv, ho, hf, not_lt.mpr hle, AttemptRepo.create]
  · simp [start_practical_testing, ht, hv, ho, hf, hlt]
  · simp [complete_theoretical_testing, ht, hv, ho, hf, hlt]

/-- Witness for C10: a call exactly at `t0 + 5 days` passes both the start
and the complete check; a call one microsecond later fails both. -/
theorem c10_strict_deadline_witness :
    (start_practical_testing deadlineStore 7 (5 * 86400000000) 2).1 =
      Except.ok (PracticalQuestionRepo.get_all deadlineStore 2) ∧
    (start_practical_testing deadlineStore 7 (5 * 86400000000 + 1) 2).1 =
      Except.error (Err.BadRequest "Время прохождения теста истекло") ∧
    (complete_theoretical_testing deadlineStore 7 (5 * 86400000000 + 1) 2 []).1 =
      Except.error (Err.BadRequest "Время прохождения теста истекло") :=
  ⟨((c10_strict_deadline deadlineStore 7 (5 * 86400000000) 2
      { id := 2, vacancy_id := 1 } { id := 1, state := VacancyState.OPENED, test_time := 5 }
      deadlineFirstAttempt [] (by decide) (by decide) (by decide) (by decide)).1
      (by decide)).1,
   ((c10_strict_deadline deadlineStore 7 (5 * 86400000000 + 1) 2
      { id := 2, vacancy_id := 1 } { id := 1, state := VacancyState.OPENED, test_time := 5 }
      deadlineFirstAttempt [] (by decide) (by decide) (by decide) (by decide)).2
      (by decide)).1,
   ((c10_strict_deadline deadlineStore 7 (5 * 86400000000 + 1) 2
      { id := 2, vacancy_id := 1 } { id := 1, state := VacancyState.OPENED, test_time := 5 }
      deadlineFirstAttempt [] (by decide) (by decide) (by decide) (by decide)).2
      (by decide)).2⟩

/-- Claim C3: every successful complete call creates exactly one attempt row —
appended to the store with the caller's id, the given testing id, zero
correct answers and `total_answers` equal to the number of questions of the
corresponding kind — and returns it with the testing embedded as `test`. -/
theorem c3_attempt_creation (s : Store) (u : Nat) (now : Int) (tid : Nat)
    (dataT : List AnswerToTheoreticalQuestion) (dataP : List AnswerToPracticalQuestion) :
    (∀ r s2, complete_theoretical_testing s u now tid dataT = (Except.ok r, s2) →
      ∃ t, TestingRepo.get s tid = some t ∧
        r.user_id = u ∧ r.testing_id = tid ∧ r.correct_answers = 0 ∧
        r.total_answers = (TheoreticalQuestionRepo.get_all s tid).length ∧
        r.test = some t ∧
        s2.attempts = s.attempts ++
          [{ id := s.next_attempt_id, user_id := u, testing_id := tid, correct_answers := 0,
             total_answers := (TheoreticalQuestionRepo.get_all s tid).length,
             created_at := now }]) ∧
    (∀ r s2, complete_practical_testing s u now tid dataP = (Except.ok r, s2) →
      ∃ t, TestingRepo.get s tid = some t ∧
        r.user_id = u ∧ r.testing_id = tid ∧ r.correct_answers = 0 ∧
        r.total_answers = (PracticalQuestionRepo.get_all s tid).length ∧
        r.test = some t ∧
        s2.attempts = s.attempts ++
          [{ id := s.next_attempt_id, user_id := u, testing_id := tid, correct_answers := 0,
             total_answers := (PracticalQuestionRepo.get_all s tid).length,
             created_at := now }]) := by
  constructor
  · intro r s2 h
    cases hT : TestingRepo.get s tid with
    | none => simp [complete_theoretical_testing, hT] at h
    | some t =>
      cases hV : VacancyRepo.get s t.vacancy_id with
      | none => simp [complete_theoretical_testing, hT, hV] at h
      | some v =>
        by_cases hS : v.state = VacancyState.OPENED
        · cases hF : AttemptRepo.get_first s u tid with
          | none =>
            simp [complete_theoretical_testing, hT, hV, hS, hF, AttemptRepo.create] at h
            obtain ⟨hr, hs⟩ := h
            exact ⟨t, rfl, by simp [← hr], by simp [← hr], by simp [← hr], by simp [← hr],
              by simp [← hr], by simp [← hs]⟩
          | some fa =>
            by_cases hD : now > fa.created_at + timedelta_days v.test_time
            · simp [complete_theoretical_testing, hT, hV, hS, hF, hD] at h
            · simp [complete_theoretical_testing, hT, hV, hS, hF, hD, AttemptRepo.create] at h
              obtain ⟨hr, hs⟩ := h
              exact ⟨t, rfl, by simp [← hr], by simp [← hr], by simp [← hr], by simp [← hr],
                by simp [← hr], by simp [← hs]⟩
        · simp [complete_theoretical_testing, hT, hV, hS] at h
  · intro r s2 h
    cases hT : TestingRepo.get s tid with
    | none => simp [complete_practical_testing, hT] at h
    | some t =>
      cases hV : VacancyRepo.get s t.vacancy_id with
      | none => simp [complete_practical_testing, hT, hV] at h
      | some v =>
        by_cases hS : v.state = VacancyState.OPENED
        · cases hF : AttemptRepo.get_first s u tid with
          | none =>
            simp [complete_practical_testing, hT, hV, hS, hF, AttemptRepo.create] at h
            obtain ⟨hr, hs⟩ := h
            exact ⟨t, rfl, by simp [← hr], by simp [← hr], by simp [← hr], by simp [← hr],
              by simp [← hr], by simp [← hs]⟩
          | some fa =>
            by_cases hD : now > fa.created_at + timedelta_days v.test_time
            · simp [complete_practical_testing, hT, hV, hS, hF, hD] at h
            · simp [complete_practical_testing, hT, hV, hS, hF, hD, AttemptRepo.create] at h
              obtain ⟨hr, hs⟩ := h
              exact ⟨t, rfl, by simp [← hr], by simp [← hr], by simp [← hr], by simp [← hr],
                by simp [← hr], by simp [← hs]⟩
        · simp [complete_practical_testing, hT, hV, hS] at h

/-- The theoretical-complete store after a successful call on `deadlineStore`
by user 7 at time 0. -/
def completedStore : Store :=
  { deadlineStore with
    attempts := deadlineStore.attempts ++
      [{ id := 1, user_id := 7, testing_id := 2, correct_answers := 0,
         total_answers := 1, created_at := 0 }],
    next_attempt_id := 2 }

/-- Witness for C3: completing the theoretical test on `deadlineStore` as
user 7 at time 0 creates exactly the expected attempt row and returns it with
the testing embedded. -/
theorem c3_attempt_creation_witness :
    ∃ t, TestingRepo.get deadlineStore 2 = some t ∧
      (7 : Nat) = 7 ∧ (2 : Nat) = 2 ∧ (0 : Nat) = 0 ∧
      (1 : Nat) = (TheoreticalQuestionRepo.get_all deadlineStore 2).length ∧
      (some { id := 2, vacancy_id := 1 } : Option Testing) = some t ∧
      completedStore.attempts = deadlineStore.attempts ++
        [{ id := deadlineStore.next_attempt_id, user_id := 7, testing_id := 2,
           correct_answers := 0,
           total_answers := (TheoreticalQuestionRepo.get_all deadlineStore 2).length,
           created_at := 0 }] :=
  (c3_attempt_creation deadlineStore 7 0 2 [] []).1
    { id := 1, user_id := 7, testing_id := 2, correct_answers := 0, total_answers := 1,
      created_at := 0, test := some { id := 2, vacancy_id := 1 } }
    completedStore (by rfl)

/-- Every path of `start_practical_testing` returns the store unchanged. -/
theorem start_practical_snd (s : Store) (u : Nat) (now : Int) (tid : Nat) :
    (start_practical_testing s u now tid).2 = s := by
  unfold start_practical_testing
  cases hT : TestingRepo.get s tid with
  | none => rfl
  | some t =>
    cases hV : VacancyRepo.get s t.vacancy_id with
    | none => simp [hV]
    | some v =>
      by_cases hS : v.state = VacancyState.OPENED
      · cases hF : AttemptRepo.get_first s u tid with
        | none => simp [hV, hS, hF]
        | some fa =>
          by_cases hD : now > fa.created_at + timedelta_days v.test_time
          · simp [hV, hS, hF, hD]
          · simp [hV, hS, hF, hD]
      · simp [hV, hS]

/-- Every path of `start_theoretical_testing` returns the store unchanged. -/
theorem start_theoretical_snd (s : Store) (u : Nat) (now : Int) (tid : Nat) :
    (start_theoretical_testing s u now tid).2 = s := by
  unfold start_theoretical_testing
  cases hT : TestingRepo.get s tid with
  | none => rfl
  | some t =>
    cases hV : VacancyRepo.get s t.vacancy_id with
    | none => simp [hV]
    | some v =>
      by_cases hS : v.state = VacancyState.OPENED
      · cases hF : AttemptRepo.get_first s u tid with
        | none => simp [hV, hS, hF]
        | some fa =>
          by_cases hD : now > fa.created_at + timedelta_days v.test_time
          · simp [hV, hS, hF, hD]
          · simp [hV, hS, hF, hD]
      · simp [hV, hS]

/-- `complete_theoretical_testing` either fails leaving the store unchanged,
or succeeds appending exactly the one new attempt row. -/
theorem complete_theoretical_total (s : Store) (u : Nat) (now : Int) (tid : Nat)
    (dataT : List AnswerToTheoreticalQuestion) :
    (∃ e, complete_theoretical_testing s u now tid dataT = (Except.error e, s)) ∨
    complete_theoretical_testing s u now tid dataT =
      (Except.ok ⟨s.next_attempt_id, u, tid, 0, (TheoreticalQuestionRepo.get_all s tid).length,
        now, TestingRepo.get s tid⟩,
       { s with
         attempts := s.attempts ++
           [⟨s.next_attempt_id, u, tid, 0, (TheoreticalQuestionRepo.get_all s tid).length, now⟩],
         next_attempt_id := s.next_attempt_id + 1 }) := by
  cases hT : TestingRepo.get s tid with
  | none =>
    exact Or.inl ⟨Err.NotFound ("Тестирование с id:" ++ toString tid ++ " не найдено"),
      by simp [complete_theoretical_testing, hT]⟩
  | some t =>
    cases hV : VacancyRepo.get s t.vacancy_id with
    | none =>
      exact Or.inl ⟨Err.NotFound ("Вакансия с id:" ++ toString t.vacancy_id ++ " не найдена"),
        by simp [complete_theoretical_testing, hT, hV]⟩
    | some v =>
      by_cases hS : v.state = VacancyState.OPENED
      · cases hF : AttemptRepo.get_first s u tid with
        | none =>
          exact Or.inr (by simp [complete_theoretical_testing, hT, hV, hS, hF, AttemptRepo.create])
        | some fa =>
          by_cases hD : now > fa.created_at + timedelta_days v.test_time
          · exact Or.inl ⟨Err.BadRequest "Время прохождения теста истекло",
              by simp [complete_theoretical_testing, hT, hV, hS, hF, hD]⟩
          · exact Or.inr
              (by simp [complete_theoretical_testing, hT, hV, hS, hF, hD, AttemptRepo.create])
      · exact Or.inl ⟨Err.BadRequest ("Вакансия с id:" ++ toString t.vacancy_id ++ " не открыта"),
          by simp [complete_theoretical_testing, hT, hV, hS]⟩

/-- `complete_practical_testing` either fails leaving the store unchanged, or
succeeds appending exactly the one new attempt row. -/
theorem complete_practical_total (s : Store) (u : Nat) (now : Int) (tid : Nat)
    (dataP : List AnswerToPracticalQuestion) :
    (∃ e, complete_practical_testing s u now tid dataP = (Except.error e, s)) ∨
    complete_practical_testing s u now tid dataP =
      (Except.ok ⟨s.next_attempt_id, u, tid, 0, (PracticalQuestionRepo.get_all s tid).length,
        now, TestingRepo.get s tid⟩,
       { s with
         attempts := s.attempts ++
           [⟨s.next_attempt_id, u, tid, 0, (PracticalQuestionRepo.get_all s tid).length, now⟩],
         next_attempt_id := s.next_attempt_id + 1 }) := by
  cases hT : TestingRepo.get s tid with
  | none =>
    exact Or.inl ⟨Err.NotFound ("Тестирование с id:" ++ toString tid ++ " не найдено"),
      by simp [complete_practical_testing, hT]⟩
  | some t =>
    cases hV : VacancyRepo.get s t.vacancy_id with
    | none =>
      exact Or.inl ⟨Err.NotFound ("Вакансия с id:" ++ toString t.vacancy_id ++ " не найдена"),
        by simp [complete_practical_testing, hT, hV]⟩
    | some v =>
      by_cases hS : v.state = VacancyState.OPENED
      · cases hF : AttemptRepo.get_first s u tid with
        | none =>
          exact Or.inr (by simp [complete_practical_testing, hT, hV, hS, hF, AttemptRepo.create])
        | some fa =>
          by_cases hD : now > fa.created_at + timedelta_days v.test_time
          · exact Or.inl ⟨Err.BadRequest "Время прохождения теста истекло",
              by simp [complete_practical_testing, hT, hV, hS, hF, hD]⟩
          · exact Or.inr
              (by simp [complete_practical_testing, hT, hV, hS, hF, hD, AttemptRepo.create])
      · exact Or.inl ⟨Err.BadRequest ("Вакансия с id:" ++ toString t.vacancy_id ++ " не открыта"),
          by simp [complete_practical_testing, hT, hV, hS]⟩

/-- Claim C6: start calls and question reads never change the store; a
complete call that fails any validation leaves the store unchanged; and the
only state change of the lifecycle is the single appended attempt row on a
successful complete call. -/
theorem c6_no_write_frame (s : Store) (u : Nat) (now : Int) (tid : Nat)
    (dataT : List AnswerToTheoreticalQuestion) (dataP : List AnswerToPracticalQuestion) :
    (start_practical_testing s u now tid).2 = s ∧
    (start_theoretical_testing s u now tid).2 = s ∧
    (∀ e, (complete_theoretical_testing s u now tid dataT).1 = Except.error e →
      (complete_theoretical_testing s u now tid dataT).2 = s) ∧
    (∀ e, (complete_practical_testing s u now tid dataP).1 = Except.error e →
      (complete_practical_testing s u now tid dataP).2 = s) ∧
    (∀ r, (complete_theoretical_testing s u now tid dataT).1 = Except.ok r →
      (complete_theoretical_testing s u now tid dataT).2 =
        { s with
          attempts := s.attempts ++
            [{ id := s.next_attempt_id, user_id := u, testing_id := tid, correct_answers := 0,
               total_answers := (TheoreticalQuestionRepo.get_all s tid).length,
               created_at := now }],
          next_attempt_id := s.next_attempt_id + 1 }) ∧
    (∀ r, (complete_practical_testing s u now tid dataP).1 = Except.ok r →
      (complete_practical_testing s u now tid dataP).2 =
        { s with
          attempts := s.attempts ++
            [{ id := s.next_attempt_id, user_id := u, testing_id := tid, correct_answers := 0,
               total_answers := (PracticalQuestionRepo.get_all s tid).length,
               created_at := now }],
          next_attempt_id := s.next_attempt_id + 1 }) := by
  refine ⟨start_practical_snd s u now tid, start_theoretical_snd s u now tid,
    fun e he => ?_, fun e he => ?_, fun r hr => ?_, fun r hr => ?_⟩
  · rcases complete_theoretical_total s u now tid dataT with ⟨e', heq⟩ | hok
    · rw [heq]
    · rw [hok] at he
      simp at he
  · rcases complete_practical_total s u now tid dataP with ⟨e', heq⟩ | hok
    · rw [heq]
    · rw [hok] at he
      simp at he
  · rcases complete_theoretical_total s u now tid dataT with ⟨e', heq⟩ | hok
    · rw [heq] at hr
      simp at hr
    · rw [hok]
  · rcases complete_practical_total s u now tid dataP with ⟨e', heq⟩ | hok
    · rw [heq] at hr
      simp at hr
    · rw [hok]

/-- Witness for C6: on `deadlineStore` the start call leaves the store
unchanged, the closed-vacancy complete call leaves `closedStore` unchanged,
and the successful complete call appends exactly one attempt row. -/
theorem c6_no_write_frame_witness :
    (start_practical_testing deadlineStore 7 0 2).2 = deadlineStore ∧
    (complete_theoretical_testing closedStore 7 0 2 []).2 = closedStore ∧
    (complete_theoretical_testing deadlineStore 7 0 2 []).2 =
      { deadlineStore with
        attempts := deadlineStore.attempts ++
          [{ id := deadlineStore.next_attempt_id, user_id := 7, testing_id := 2,
             correct_answers := 0,
             total_answers := (TheoreticalQuestionRepo.get_all deadlineStore 2).length,
             created_at := 0 }],
        next_attempt_id := deadlineStore.next_attempt_id + 1 } :=
  ⟨(c6_no_write_frame deadlineStore 7 0 2 [] []).1,
   (c6_no_write_frame closedStore 7 0 2 [] []).2.2.1
     (Err.BadRequest ("Вакансия с id:" ++ toString 1 ++ " не открыта")) (by rfl),
   (c6_no_write_frame deadlineStore 7 0 2 [] []).2.2.2.2.1
     { id := 1, user_id := 7, testing_id := 2, correct_answers := 0, total_answers := 1,
       created_at := 0, test := some { id := 2, vacancy_id := 1 } } (by rfl)⟩

/-- Claim C7: `get_test_attempts` always queries with the caller's id, so a
successful result only ever contains the caller's attempts;
`get_user_attempts` passes its `userId` argument (not the caller) as the user
filter, and an absent user filter restricts nothing — paging runs over all
users' attempts. -/
theorem c7_attempt_scoping (s : Store) (user : Nat) (tid : Option Nat) (page per_page : Int)
    (ob : OrderBy) (q : Option String) (uid : Option Nat) (res : List Attempt) (l o : Int)
    (h : get_test_attempts s user tid page per_page ob = Except.ok res) :
    (∀ a ∈ res, a.user_id = user) ∧
    (∀ c, get_user_attempts_call page per_page ob q uid = Except.ok c → c.user_id = uid) ∧
    AttemptRepo.run_get_all s l o none none = (s.attempts.drop o.toNat).take l.toNat := by
  refine ⟨?_, ?_, ?_⟩
  · by_cases h1 : page < 1
    · simp [get_test_attempts, h1] at h
    · by_cases h2 : per_page < 1
      · simp [get_test_attempts, h1, h2] at h
      · simp [get_test_attempts, h1, h2] at h
        intro a ha
        rw [← h] at ha
        unfold AttemptRepo.run_get_all at ha
        have ha2 := List.drop_subset _ _ (List.take_subset _ _ ha)
        rw [List.mem_filter] at ha2
        have hm := ha2.2
        simp only [attempt_matches, Bool.and_eq_true, beq_iff_eq] at hm
        exact hm.1
  · intro c hc
    by_cases h1 : page < 1
    · simp [get_user_attempts_call, h1] at hc
    · by_cases h2 : per_page < 1
      · simp [get_user_attempts_call, h1, h2] at hc
      · by_cases hq : q.getD "" = ""
        · simp [get_user_attempts_call, h1, h2, hq] at hc
          rw [← hc]
          rfl
        · simp [get_user_attempts_call, h1, h2, hq] at hc
          rw [← hc]
          rfl
  · unfold AttemptRepo.run_get_all
    have hall : attempt_matches none none = fun _ => true := by
      funext a
      simp [attempt_matches]
    rw [hall]
    simp

/-- Store holding attempts of two different users (7 and 9). -/
def scopeStore : Store :=
  { testings := [], vacancies := [],
    attempts := [{ id := 0, user_id := 7, testing_id := 2, correct_answers := 0,
                   total_answers := 1, created_at := 0 },
                 { id := 1, user_id := 9, testing_id := 2, correct_answers := 0,
                   total_answers := 1, created_at := 5 }],
    practical_questions := [], theoretical_questions := [], next_attempt_id := 2 }

/-- The attempt of user 7 in `scopeStore`. -/
def scopeAttempt : Attempt :=
  { id := 0, user_id := 7, testing_id := 2, correct_answers := 0,
    total_answers := 1, created_at := 0 }

/-- Witness for C7: on `scopeStore`, caller 7's listing returns only their own
attempt, the privileged call with absent `userId` carries no user filter, and
the unfiltered repository query pages over all attempts. -/
theorem c7_attempt_scoping_witness :
    scopeAttempt.user_id = 7 ∧
    (AttemptRepoCall.getAll 10 0 OrderBy.created_at none none).user_id = none ∧
    AttemptRepo.run_get_all scopeStore 3 1 none none =
      (scopeStore.attempts.drop (1 : Int).toNat).take (3 : Int).toNat :=
  ⟨(c7_attempt_scoping scopeStore 7 none 1 10 OrderBy.created_at none none
      [scopeAttempt] 3 1 (by rfl)).1 scopeAttempt (by decide),
   (c7_attempt_scoping scopeStore 7 none 1 10 OrderBy.created_at none none
      [scopeAttempt] 3 1 (by rfl)).2.1
      (AttemptRepoCall.getAll 10 0 OrderBy.created_at none none) (by rfl),
   (c7_attempt_scoping scopeStore 7 none 1 10 OrderBy.created_at none none
      [scopeAttempt] 3 1 (by rfl)).2.2⟩
